import Mathlib

/-!
Verification of the RSA key lifecycle and operation-dispatch core
(`rsa_key.cpp`, namespace `keymaster`): key generation with parameter
defaulting, key import with declared-vs-actual reconciliation, and the
mode-compatibility gate in front of operation creation.

The embedding mirrors the source functions `RsaKey::GenerateKey`,
`RsaKey::ImportKey`, `RsaKey::CreateOperation` and the two
`RsaKey::SupportedMode` overloads.  External collaborators (the OpenSSL
big-number and RSA primitives, the keymaster enum definitions) are not part
of the source file; they are modelled from the specification and marked as
such in their doc comments.
-/

namespace Keymaster

/-- Authorization tags recognized by this core (spec section 6); `other`
covers the rest of the fixed tag vocabulary. -/
inductive Tag where
  | ALGORITHM
  | KEY_SIZE
  | RSA_PUBLIC_EXPONENT
  | PADDING
  | DIGEST
  | PURPOSE
  | other (n : Nat)
deriving DecidableEq, Repr

/-- An AuthorizationSet: an ordered collection of (tag, value) pairs.
Values are modelled uniformly as naturals (uint32 / uint64 / enum codes). -/
abbrev AuthorizationSet := List (Tag × Nat)

/-- `AuthorizationSet::GetTagValue`: first value stored under a tag, if any
(for single-valued tags only the first match is authoritative). -/
def getTagValue (s : AuthorizationSet) (t : Tag) : Option Nat :=
  (s.find? (fun a => a.1 == t)).map (fun a => a.2)

/-- `AuthorizationSet::push_back`: append one authorization at the end. -/
def push_back (s : AuthorizationSet) (t : Tag) (v : Nat) : AuthorizationSet :=
  s ++ [(t, v)]

/-- The error codes this core reports (`keymaster_error_t`). -/
inductive keymaster_error_t where
  | KM_ERROR_OK
  | KM_ERROR_MEMORY_ALLOCATION_FAILED
  | KM_ERROR_UNKNOWN_ERROR
  | KM_ERROR_IMPORT_PARAMETER_MISMATCH
  | KM_ERROR_UNSUPPORTED_PADDING_MODE
  | KM_ERROR_UNSUPPORTED_DIGEST
  | KM_ERROR_UNSUPPORTED_PURPOSE
deriving DecidableEq, Repr

/-- RSA key material as visible to this core: the public exponent as an
arbitrary-precision value (the provider's `rsa->e`) and the modulus length
in bytes (what the provider's `RSA_size` returns). -/
structure RsaMaterial where
  e : Nat
  sizeBytes : Nat
deriving DecidableEq, Repr

/-- Modelled from the spec: the provider's narrowing read of a big number
into a fixed-width word (`BN_get_word`), an external collaborator absent
from the source tree.  Returns the value when it fits the 32-bit word and
the sentinel marker `0xffffffff` ("value too large") otherwise (spec
sections 4.3 and 9). -/
def BN_get_word (n : Nat) : Nat :=
  if n ≤ 0xffffffff then n else 0xffffffff

/-- Modelled from the spec: enum code for purpose Encrypt
(`keymaster_purpose_t`, defined outside the source file). -/
def KM_PURPOSE_ENCRYPT : Int := 0

/-- Modelled from the spec: enum code for purpose Decrypt. -/
def KM_PURPOSE_DECRYPT : Int := 1

/-- Modelled from the spec: enum code for purpose Sign. -/
def KM_PURPOSE_SIGN : Int := 2

/-- Modelled from the spec: enum code for purpose Verify. -/
def KM_PURPOSE_VERIFY : Int := 3

/-- Modelled from the spec: enum code for padding None
(`keymaster_padding_t`, defined outside the source file). -/
def KM_PAD_NONE : Int := 1

/-- Modelled from the spec: enum code for padding OAEP. -/
def KM_PAD_RSA_OAEP : Int := 2

/-- Modelled from the spec: enum code for padding PKCS#1-v1.5-encryption. -/
def KM_PAD_RSA_PKCS1_1_5_ENCRYPT : Int := 4

/-- Modelled from the spec: enum code for digest None
(`keymaster_digest_t`, defined outside the source file). -/
def KM_DIGEST_NONE : Int := 0

/-- Modelled from the spec: enum code for algorithm RSA
(`keymaster_algorithm_t`, defined outside the source file). -/
def KM_ALGORITHM_RSA : Nat := 1

/-- The Key Entity: authorization set plus the (exclusively owned, possibly
already released) key material slot `rsa_key_`. -/
structure RsaKey where
  auths : AuthorizationSet
  material : Option RsaMaterial
deriving DecidableEq, Repr

/-- `RSA_DEFAULT_KEY_SIZE` from the source. -/
def RSA_DEFAULT_KEY_SIZE : Nat := 2048

/-- `RSA_DEFAULT_EXPONENT` from the source. -/
def RSA_DEFAULT_EXPONENT : Nat := 65537

/-- The public-exponent stanza of `RsaKey::GenerateKey` (lines 35-37):
append the default exponent when `GetTagValue` does not find one. -/
def resolveExponent (s : AuthorizationSet) : AuthorizationSet :=
  if (getTagValue s Tag.RSA_PUBLIC_EXPONENT).isSome then s
  else push_back s Tag.RSA_PUBLIC_EXPONENT RSA_DEFAULT_EXPONENT

/-- The key-size stanza of `RsaKey::GenerateKey` (lines 39-41): append the
default key size when `GetTagValue` does not find one. -/
def resolveKeySize (s : AuthorizationSet) : AuthorizationSet :=
  if (getTagValue s Tag.KEY_SIZE).isSome then s
  else push_back s Tag.KEY_SIZE RSA_DEFAULT_KEY_SIZE

/-- The parameter-resolution step of `RsaKey::GenerateKey` (lines 33-41):
copy the caller description, then append the default public exponent and
the default key size for whichever of the two tags `GetTagValue` does not
find. -/
def resolveDefaults (key_description : AuthorizationSet) : AuthorizationSet :=
  resolveKeySize (resolveExponent key_description)

/-- Outcome of the external Key Material Provider during generation:
allocation failure of the provider objects, failure of `BN_set_word` or
`RSA_generate_key_ex`, or successfully generated material. -/
inductive GenOutcome where
  | allocFail
  | genFail
  | ok (m : RsaMaterial)
deriving DecidableEq, Repr

/-- Observable result of `RsaKey::GenerateKey`: the returned pointer, the
value last written through the `error` out-pointer (`none` when nothing was
written), and whether the provider's key generation was reached. -/
structure GenResult where
  ret : Option RsaKey
  errWrite : Option keymaster_error_t
  providerInvoked : Bool
deriving DecidableEq, Repr

/-- `RsaKey::GenerateKey` (lines 28-60).  A null `error` out-pointer makes
the function return immediately; otherwise defaults are resolved, the
provider is consulted, and on success the new entity wraps the generated
material together with the augmented authorization set. -/
def GenerateKey (errorIsNull : Bool) (key_description : AuthorizationSet)
    (outcome : GenOutcome) : GenResult :=
  if errorIsNull then ⟨none, none, false⟩
  else
    let authorizations := resolveDefaults key_description
    match outcome with
    | GenOutcome.allocFail =>
        ⟨none, some keymaster_error_t.KM_ERROR_MEMORY_ALLOCATION_FAILED, false⟩
    | GenOutcome.genFail =>
        ⟨none, some keymaster_error_t.KM_ERROR_UNKNOWN_ERROR, true⟩
    | GenOutcome.ok m =>
        ⟨some ⟨authorizations, some m⟩, some keymaster_error_t.KM_ERROR_OK, true⟩

/-- Observable result of `RsaKey::ImportKey`: the returned pointer, the
value last written through `error` (`none` when nothing was written), and
whether extraction of RSA material from the generic container was
attempted. -/
structure ImportResult where
  ret : Option RsaKey
  errWrite : Option keymaster_error_t
  extractInvoked : Bool
deriving DecidableEq, Repr

/-- The algorithm step of `RsaKey::ImportKey` (lines 107-121): a declared
algorithm must equal RSA; an undeclared one is appended.  On success the
entity is built from the accumulated authorizations and the material. -/
def importAlgorithmStep (authorizations : AuthorizationSet)
    (rsa_key : RsaMaterial) : ImportResult :=
  match getTagValue authorizations Tag.ALGORITHM with
  | some algorithm =>
      if algorithm ≠ KM_ALGORITHM_RSA then
        ⟨none, some keymaster_error_t.KM_ERROR_IMPORT_PARAMETER_MISMATCH, true⟩
      else
        ⟨some ⟨authorizations, some rsa_key⟩, some keymaster_error_t.KM_ERROR_OK, true⟩
  | none =>
      ⟨some ⟨push_back authorizations Tag.ALGORITHM KM_ALGORITHM_RSA, some rsa_key⟩,
       some keymaster_error_t.KM_ERROR_OK, true⟩

/-- The key-size step of `RsaKey::ImportKey` (lines 95-105): a declared
key size is compared against `RSA_size` (the modulus length in BYTES); an
undeclared key size is inferred as `RSA_size * 8` (bits) and appended.
Then control continues with the algorithm step. -/
def importKeySizeStep (authorizations : AuthorizationSet)
    (rsa_key : RsaMaterial) : ImportResult :=
  match getTagValue authorizations Tag.KEY_SIZE with
  | some key_size =>
      if rsa_key.sizeBytes ≠ key_size then
        ⟨none, some keymaster_error_t.KM_ERROR_IMPORT_PARAMETER_MISMATCH, true⟩
      else importAlgorithmStep authorizations rsa_key
  | none =>
      importAlgorithmStep
        (push_back authorizations Tag.KEY_SIZE (rsa_key.sizeBytes * 8)) rsa_key

/-- `RsaKey::ImportKey` (lines 62-122).  A null `error` out-pointer makes
the function return immediately.  `pkeyRsa` is the RSA material extracted
from the generic container by `EVP_PKEY_get1_RSA` (`none` when the
container holds no RSA key).  A declared public exponent is compared as an
arbitrary-precision value against the material (the spec's collaborator
contract for `BN_set_word`/`BN_cmp`); an undeclared exponent is read back
via the narrowing `BN_get_word`, the sentinel is rejected, and the value is
appended.  Control then continues with the key-size and algorithm steps. -/
def ImportKey (errorIsNull : Bool) (key_description : AuthorizationSet)
    (pkeyRsa : Option RsaMaterial) : ImportResult :=
  if errorIsNull then ⟨none, none, false⟩
  else
    match pkeyRsa with
    | none => ⟨none, some keymaster_error_t.KM_ERROR_UNKNOWN_ERROR, true⟩
    | some rsa_key =>
        match getTagValue key_description Tag.RSA_PUBLIC_EXPONENT with
        | some public_exponent =>
            if public_exponent ≠ rsa_key.e then
              ⟨none, some keymaster_error_t.KM_ERROR_IMPORT_PARAMETER_MISMATCH, true⟩
            else importKeySizeStep key_description rsa_key
        | none =>
            if BN_get_word rsa_key.e = 0xffffffff then
              ⟨none, some keymaster_error_t.KM_ERROR_IMPORT_PARAMETER_MISMATCH, true⟩
            else
              importKeySizeStep
                (push_back key_description Tag.RSA_PUBLIC_EXPONENT
                  (BN_get_word rsa_key.e))
                rsa_key

/-- The operation objects the factory can construct, one variant per source
class; each owns the key-material handle it received from `release()`. -/
inductive Operation where
  | RsaSignOperation (digest padding : Int) (material : Option RsaMaterial)
  | RsaVerifyOperation (digest padding : Int) (material : Option RsaMaterial)
  | RsaEncryptOperation (padding : Int) (material : Option RsaMaterial)
  | RsaDecryptOperation (padding : Int) (material : Option RsaMaterial)
deriving DecidableEq, Repr

/-- The key-material handle owned by an operation object. -/
def Operation.material : Operation → Option RsaMaterial
  | Operation.RsaSignOperation _ _ m => m
  | Operation.RsaVerifyOperation _ _ m => m
  | Operation.RsaEncryptOperation _ m => m
  | Operation.RsaDecryptOperation _ m => m

/-- `RsaKey::SupportedMode(purpose, padding)` (lines 181-193): Sign and
Verify demand padding None; Encrypt and Decrypt demand OAEP or
PKCS#1-v1.5-encryption; every other purpose falls through to `false`. -/
def SupportedModePadding (purpose padding : Int) : Bool :=
  if purpose == KM_PURPOSE_SIGN || purpose == KM_PURPOSE_VERIFY then
    padding == KM_PAD_NONE
  else if purpose == KM_PURPOSE_ENCRYPT || purpose == KM_PURPOSE_DECRYPT then
    padding == KM_PAD_RSA_OAEP || padding == KM_PAD_RSA_PKCS1_1_5_ENCRYPT
  else false

/-- `RsaKey::SupportedMode(purpose, digest)` (lines 195-207): Sign and
Verify demand digest None; Encrypt and Decrypt do not care; every other
purpose falls through to the trailing `return true`. -/
def SupportedModeDigest (purpose digest : Int) : Bool :=
  if purpose == KM_PURPOSE_SIGN || purpose == KM_PURPOSE_VERIFY then
    digest == KM_DIGEST_NONE
  else true

/-- The padding the dispatch reads from the entity: the declared value, or
the out-of-range sentinel `static_cast<keymaster_padding_t>(-1)` when the
tag is absent. -/
def declaredPadding (k : RsaKey) : Int :=
  match getTagValue k.auths Tag.PADDING with
  | some v => (v : Int)
  | none => -1

/-- The digest the dispatch reads from the entity: the declared value, or
the out-of-range sentinel `static_cast<keymaster_digest_t>(-1)` when the
tag is absent. -/
def declaredDigest (k : RsaKey) : Int :=
  match getTagValue k.auths Tag.DIGEST with
  | some v => (v : Int)
  | none => -1

/-- Observable result of `RsaKey::CreateOperation`: the returned operation
pointer, the error code written through `error`, and the state of the Key
Entity after the call (its material slot may have been released). -/
structure CreateResult where
  op : Option Operation
  err : keymaster_error_t
  post : RsaKey
deriving DecidableEq, Repr

/-- `RsaKey::CreateOperation` (lines 130-170): read padding and digest
(each defaulting to the -1 sentinel), gate on the two `SupportedMode`
checks in that order, then switch on the purpose; the four known purposes
construct their operation variant around `rsa_key_.release()`, and any
other purpose reports `KM_ERROR_UNSUPPORTED_PURPOSE`. -/
def CreateOperation (k : RsaKey) (purpose : Int) : CreateResult :=
  if !SupportedModePadding purpose (declaredPadding k) then
    ⟨none, keymaster_error_t.KM_ERROR_UNSUPPORTED_PADDING_MODE, k⟩
  else
    if !SupportedModeDigest purpose (declaredDigest k) then
      ⟨none, keymaster_error_t.KM_ERROR_UNSUPPORTED_DIGEST, k⟩
    else
      if purpose == KM_PURPOSE_SIGN then
        ⟨some (Operation.RsaSignOperation (declaredDigest k) (declaredPadding k)
           k.material),
         keymaster_error_t.KM_ERROR_OK, ⟨k.auths, none⟩⟩
      else if purpose == KM_PURPOSE_VERIFY then
        ⟨some (Operation.RsaVerifyOperation (declaredDigest k) (declaredPadding k)
           k.material),
         keymaster_error_t.KM_ERROR_OK, ⟨k.auths, none⟩⟩
      else if purpose == KM_PURPOSE_ENCRYPT then
        ⟨some (Operation.RsaEncryptOperation (declaredPadding k) k.material),
         keymaster_error_t.KM_ERROR_OK, ⟨k.auths, none⟩⟩
      else if purpose == KM_PURPOSE_DECRYPT then
        ⟨some (Operation.RsaDecryptOperation (declaredPadding k) k.material),
         keymaster_error_t.KM_ERROR_OK, ⟨k.auths, none⟩⟩
      else
        ⟨none, keymaster_error_t.KM_ERROR_UNSUPPORTED_PURPOSE, k⟩

/-! ## Helper lemmas about the authorization-set container -/

/-- Looking up a tag right after appending a value for it yields the
previously stored value if one existed, and the appended value otherwise. -/
theorem getTagValue_push_back_self (s : AuthorizationSet) (t : Tag) (v : Nat) :
    getTagValue (push_back s t v) t = some ((getTagValue s t).getD v) := by
  unfold getTagValue push_back
  rw [List.find?_append]
  cases hf : List.find? (fun a => a.1 == t) s with
  | none => simp [List.find?]
  | some p => simp

/-- Appending a value for one tag does not change the lookup of another. -/
theorem getTagValue_push_back_ne (s : AuthorizationSet) (t t' : Tag) (v : Nat)
    (h : t' ≠ t) :
    getTagValue (push_back s t' v) t = getTagValue s t := by
  unfold getTagValue push_back
  rw [List.find?_append]
  cases hf : List.find? (fun a => a.1 == t) s with
  | none =>
      have hb : (t' == t) = false := by simp [h]
      simp [List.find?, hb]
  | some p => simp

/-! ## Lemmas about the default-resolution steps -/

/-- After the exponent stanza, PublicExponent resolves to the declared
value, or to the default when none was declared. -/
theorem resolveExponent_self (s : AuthorizationSet) :
    getTagValue (resolveExponent s) Tag.RSA_PUBLIC_EXPONENT =
      some ((getTagValue s Tag.RSA_PUBLIC_EXPONENT).getD RSA_DEFAULT_EXPONENT) := by
  unfold resolveExponent
  by_cases h : (getTagValue s Tag.RSA_PUBLIC_EXPONENT).isSome
  · rw [if_pos h]
    obtain ⟨v, hv⟩ := Option.isSome_iff_exists.mp h
    rw [hv]; rfl
  · rw [if_neg h, getTagValue_push_back_self]

/-- The exponent stanza leaves every other tag's lookup unchanged. -/
theorem resolveExponent_ne (s : AuthorizationSet) (t : Tag)
    (h : t ≠ Tag.RSA_PUBLIC_EXPONENT) :
    getTagValue (resolveExponent s) t = getTagValue s t := by
  unfold resolveExponent
  by_cases hs : (getTagValue s Tag.RSA_PUBLIC_EXPONENT).isSome
  · rw [if_pos hs]
  · rw [if_neg hs,
        getTagValue_push_back_ne _ _ _ _ (fun hc => h hc.symm)]

/-- The exponent stanza only ever appends at the end. -/
theorem resolveExponent_append (s : AuthorizationSet) :
    ∃ appended, resolveExponent s = s ++ appended := by
  unfold resolveExponent
  by_cases h : (getTagValue s Tag.RSA_PUBLIC_EXPONENT).isSome
  · exact ⟨[], by rw [if_pos h, List.append_nil]⟩
  · exact ⟨[(Tag.RSA_PUBLIC_EXPONENT, RSA_DEFAULT_EXPONENT)], by rw [if_neg h]; rfl⟩

/-- A set that already resolves PublicExponent passes the exponent stanza
unchanged. -/
theorem resolveExponent_of_isSome (s : AuthorizationSet)
    (h : (getTagValue s Tag.RSA_PUBLIC_EXPONENT).isSome = true) :
    resolveExponent s = s := if_pos h

/-- After the key-size stanza, KeySize resolves to the declared value, or
to the default when none was declared. -/
theorem resolveKeySize_self (s : AuthorizationSet) :
    getTagValue (resolveKeySize s) Tag.KEY_SIZE =
      some ((getTagValue s Tag.KEY_SIZE).getD RSA_DEFAULT_KEY_SIZE) := by
  unfold resolveKeySize
  by_cases h : (getTagValue s Tag.KEY_SIZE).isSome
  · rw [if_pos h]
    obtain ⟨v, hv⟩ := Option.isSome_iff_exists.mp h
    rw [hv]; rfl
  · rw [if_neg h, getTagValue_push_back_self]

/-- The key-size stanza leaves every other tag's lookup unchanged. -/
theorem resolveKeySize_ne (s : AuthorizationSet) (t : Tag)
    (h : t ≠ Tag.KEY_SIZE) :
    getTagValue (resolveKeySize s) t = getTagValue s t := by
  unfold resolveKeySize
  by_cases hs : (getTagValue s Tag.KEY_SIZE).isSome
  · rw [if_pos hs]
  · rw [if_neg hs,
        getTagValue_push_back_ne _ _ _ _ (fun hc => h hc.symm)]

/-- The key-size stanza only ever appends at the end. -/
theorem resolveKeySize_append (s : AuthorizationSet) :
    ∃ appended, resolveKeySize s = s ++ appended := by
  unfold resolveKeySize
  by_cases h : (getTagValue s Tag.KEY_SIZE).isSome
  · exact ⟨[], by rw [if_pos h, List.append_nil]⟩
  · exact ⟨[(Tag.KEY_SIZE, RSA_DEFAULT_KEY_SIZE)], by rw [if_neg h]; rfl⟩

/-- A set that already resolves KeySize passes the key-size stanza
unchanged. -/
theorem resolveKeySize_of_isSome (s : AuthorizationSet)
    (h : (getTagValue s Tag.KEY_SIZE).isSome = true) :
    resolveKeySize s = s := if_pos h

/-- Full resolution resolves PublicExponent to the declared value or the
default. -/
theorem resolveDefaults_exponent (desc : AuthorizationSet) :
    getTagValue (resolveDefaults desc) Tag.RSA_PUBLIC_EXPONENT =
      some ((getTagValue desc Tag.RSA_PUBLIC_EXPONENT).getD RSA_DEFAULT_EXPONENT) := by
  unfold resolveDefaults
  rw [resolveKeySize_ne _ _ (by decide), resolveExponent_self]

/-- Full resolution resolves KeySize to the declared value or the
default. -/
theorem resolveDefaults_keysize (desc : AuthorizationSet) :
    getTagValue (resolveDefaults desc) Tag.KEY_SIZE =
      some ((getTagValue desc Tag.KEY_SIZE).getD RSA_DEFAULT_KEY_SIZE) := by
  unfold resolveDefaults
  rw [resolveKeySize_self, resolveExponent_ne _ _ (by decide)]

/-! ## Characterization of the import steps -/

/-- Whenever the algorithm step returns an entity, that entity carries the
material, its set resolves Algorithm, and lookups of other tags are those
of the incoming set. -/
theorem importAlgorithmStep_ret (a : AuthorizationSet) (m : RsaMaterial)
    (k : RsaKey) (h : (importAlgorithmStep a m).ret = some k) :
    (getTagValue k.auths Tag.ALGORITHM).isSome = true ∧
    k.material = some m ∧
    ∀ t, t ≠ Tag.ALGORITHM → getTagValue k.auths t = getTagValue a t := by
  unfold importAlgorithmStep at h
  split at h
  · rename_i algorithm hg
    split at h
    · exact absurd h (by simp)
    · simp only [Option.some.injEq] at h
      subst h
      exact ⟨by simp [hg], rfl, fun t _ => rfl⟩
  · rename_i hg
    simp only [Option.some.injEq] at h
    subst h
    refine ⟨by simp [getTagValue_push_back_self], rfl, fun t ht => ?_⟩
    exact getTagValue_push_back_ne a t Tag.ALGORITHM KM_ALGORITHM_RSA
      (fun hc => ht hc.symm)

/-- Whenever the key-size step returns an entity, that entity carries the
material, its set resolves KeySize and Algorithm, and lookups of other
tags are those of the incoming set. -/
theorem importKeySizeStep_ret (a : AuthorizationSet) (m : RsaMaterial)
    (k : RsaKey) (h : (importKeySizeStep a m).ret = some k) :
    (getTagValue k.auths Tag.KEY_SIZE).isSome = true ∧
    (getTagValue k.auths Tag.ALGORITHM).isSome = true ∧
    k.material = some m ∧
    ∀ t, t ≠ Tag.KEY_SIZE → t ≠ Tag.ALGORITHM →
      getTagValue k.auths t = getTagValue a t := by
  unfold importKeySizeStep at h
  split at h
  · rename_i key_size hg
    split at h
    · exact absurd h (by simp)
    · obtain ⟨halg, hmat, hother⟩ := importAlgorithmStep_ret a m k h
      refine ⟨?_, halg, hmat, fun t _ ht2 => hother t ht2⟩
      rw [hother Tag.KEY_SIZE (by decide), hg]; rfl
  · rename_i hg
    obtain ⟨halg, hmat, hother⟩ :=
      importAlgorithmStep_ret (push_back a Tag.KEY_SIZE (m.sizeBytes * 8)) m k h
    refine ⟨?_, halg, hmat, ?_⟩
    · rw [hother Tag.KEY_SIZE (by decide), getTagValue_push_back_self]; rfl
    · intro t ht1 ht2
      rw [hother t ht2,
          getTagValue_push_back_ne a t Tag.KEY_SIZE (m.sizeBytes * 8)
            (fun hc => ht1 hc.symm)]

/-- Whenever `ImportKey` (with a usable error pointer and extractable RSA
material) returns an entity, that entity carries the material, its set
resolves PublicExponent, KeySize and Algorithm, and — when the caller
omitted PublicExponent — the resolved exponent is the material's true
exponent. -/
theorem ImportKey_ret (desc : AuthorizationSet) (m : RsaMaterial) (k : RsaKey)
    (h : (ImportKey false desc (some m)).ret = some k) :
    (getTagValue k.auths Tag.RSA_PUBLIC_EXPONENT).isSome = true ∧
    (getTagValue k.auths Tag.KEY_SIZE).isSome = true ∧
    (getTagValue k.auths Tag.ALGORITHM).isSome = true ∧
    k.material = some m ∧
    (getTagValue desc Tag.RSA_PUBLIC_EXPONENT = none →
      getTagValue k.auths Tag.RSA_PUBLIC_EXPONENT = some m.e) := by
  unfold ImportKey at h
  split at h
  · exact absurd h (by simp)
  · split at h
    · rename_i hg
      exact absurd hg (by simp)
    · rename_i rk hg
      injection hg with hg
      subst hg
      split at h
      · rename_i public_exponent hg
        split at h
        · exact absurd h (by simp)
        · obtain ⟨hks, halg, hmat, hother⟩ := importKeySizeStep_ret desc m k h
          refine ⟨?_, hks, halg, hmat, fun hc => absurd hg (by rw [hc]; simp)⟩
          rw [hother Tag.RSA_PUBLIC_EXPONENT (by decide) (by decide), hg]; rfl
      · rename_i hg
        split at h
        · exact absurd h (by simp)
        · rename_i hsent
          obtain ⟨hks, halg, hmat, hother⟩ :=
            importKeySizeStep_ret
              (push_back desc Tag.RSA_PUBLIC_EXPONENT (BN_get_word m.e)) m k h
          have hword : BN_get_word m.e = m.e := by
            unfold BN_get_word at hsent ⊢
            by_cases hle : m.e ≤ 0xffffffff
            · rw [if_pos hle]
            · rw [if_neg hle] at hsent; exact absurd rfl hsent
          have hexp : getTagValue k.auths Tag.RSA_PUBLIC_EXPONENT = some m.e := by
            rw [hother Tag.RSA_PUBLIC_EXPONENT (by decide) (by decide),
                getTagValue_push_back_self, hg, hword]
            rfl
          exact ⟨by rw [hexp]; rfl, hks, halg, hmat, fun _ => hexp⟩

/-! ## Characterization of operation dispatch -/

/-- Dispatch either succeeds — returning an operation that owns exactly
the material the entity held, with the entity's slot emptied — or fails
with a non-Ok error, no operation, and the entity untouched. -/
theorem CreateOperation_cases (k : RsaKey) (purpose : Int) :
    (∃ op, CreateOperation k purpose =
        ⟨some op, keymaster_error_t.KM_ERROR_OK, ⟨k.auths, none⟩⟩ ∧
        op.material = k.material) ∨
    ((CreateOperation k purpose).op = none ∧
     (CreateOperation k purpose).err ≠ keymaster_error_t.KM_ERROR_OK ∧
     (CreateOperation k purpose).post = k) := by
  unfold CreateOperation
  by_cases hpad : SupportedModePadding purpose (declaredPadding k) = true
  · rw [hpad]
    by_cases hdig : SupportedModeDigest purpose (declaredDigest k) = true
    · rw [hdig]
      by_cases h1 : (purpose == KM_PURPOSE_SIGN) = true
      · rw [if_pos h1]; exact Or.inl ⟨_, rfl, rfl⟩
      · rw [if_neg h1]
        by_cases h2 : (purpose == KM_PURPOSE_VERIFY) = true
        · rw [if_pos h2]; exact Or.inl ⟨_, rfl, rfl⟩
        · rw [if_neg h2]
          by_cases h3 : (purpose == KM_PURPOSE_ENCRYPT) = true
          · rw [if_pos h3]; exact Or.inl ⟨_, rfl, rfl⟩
          · rw [if_neg h3]
            by_cases h4 : (purpose == KM_PURPOSE_DECRYPT) = true
            · rw [if_pos h4]; exact Or.inl ⟨_, rfl, rfl⟩
            · rw [if_neg h4]
              exact Or.inr ⟨rfl, by simp, rfl⟩
    · rw [Bool.not_eq_true] at hdig
      rw [hdig]
      exact Or.inr ⟨rfl, by simp, rfl⟩
  · rw [Bool.not_eq_true] at hpad
    rw [hpad]
    exact Or.inr ⟨rfl, by simp, rfl⟩

/-! ## Claims -/

/-- C1: the claim says a declared KeySize is compared against the
material's size in bits (8 times its byte length).  The code instead
compares the declared value against the raw byte length: importing a
2048-bit key (256 bytes) with declared KeySize 2048 is rejected with
ImportParameterMismatch and produces no Key Entity, even though the very
same import without a declared KeySize infers and appends KeySize 2048.
This theorem evaluates the embedded code at that failing input. -/
theorem C1_keysize_bits_vs_bytes :
    ImportKey false [(Tag.KEY_SIZE, 2048)] (some ⟨65537, 256⟩) =
      ⟨none, some keymaster_error_t.KM_ERROR_IMPORT_PARAMETER_MISMATCH, true⟩ ∧
    (ImportKey false [] (some ⟨65537, 256⟩)).ret.map
        (fun k => getTagValue k.auths Tag.KEY_SIZE) = some (some 2048) ∧
    ImportKey false [(Tag.KEY_SIZE, 256)] (some ⟨65537, 256⟩) =
      ⟨some ⟨[(Tag.KEY_SIZE, 256), (Tag.RSA_PUBLIC_EXPONENT, 65537),
              (Tag.ALGORITHM, 1)], some ⟨65537, 256⟩⟩,
       some keymaster_error_t.KM_ERROR_OK, true⟩ := by
  refine ⟨by decide, by decide, by decide⟩

/-- C2, counterexample: dispatching with the out-of-range purpose value 99
on an entity declaring padding None returns no operation but reports
UnsupportedPaddingMode, not UnsupportedPurpose, refuting the claim as
stated. -/
theorem C2_counterexample :
    (CreateOperation ⟨[(Tag.PADDING, 1)], some ⟨65537, 256⟩⟩ 99).op = none ∧
    (CreateOperation ⟨[(Tag.PADDING, 1)], some ⟨65537, 256⟩⟩ 99).err =
      keymaster_error_t.KM_ERROR_UNSUPPORTED_PADDING_MODE ∧
    keymaster_error_t.KM_ERROR_UNSUPPORTED_PADDING_MODE ≠
      keymaster_error_t.KM_ERROR_UNSUPPORTED_PURPOSE := by
  refine ⟨by decide, by decide, by decide⟩

/-- C2, amended: for every Key Entity, calling CreateOperation with a
purpose value outside Sign, Verify, Encrypt, Decrypt returns no operation
and reports UnsupportedPaddingMode (the padding compatibility check, which
rejects every padding for an unknown purpose, fires before the dispatch
switch ever reaches its UnsupportedPurpose default), regardless of the
declared padding and digest; the entity is left untouched. -/
theorem C2_invalid_purpose (k : RsaKey) (purpose : Int)
    (h0 : purpose ≠ KM_PURPOSE_ENCRYPT) (h1 : purpose ≠ KM_PURPOSE_DECRYPT)
    (h2 : purpose ≠ KM_PURPOSE_SIGN) (h3 : purpose ≠ KM_PURPOSE_VERIFY) :
    (CreateOperation k purpose).op = none ∧
    (CreateOperation k purpose).err =
      keymaster_error_t.KM_ERROR_UNSUPPORTED_PADDING_MODE ∧
    (CreateOperation k purpose).post = k := by
  have hb1 : (purpose == KM_PURPOSE_SIGN) = false := by simp [h2]
  have hb2 : (purpose == KM_PURPOSE_VERIFY) = false := by simp [h3]
  have hb3 : (purpose == KM_PURPOSE_ENCRYPT) = false := by simp [h0]
  have hb4 : (purpose == KM_PURPOSE_DECRYPT) = false := by simp [h1]
  have hp : SupportedModePadding purpose (declaredPadding k) = false := by
    unfold SupportedModePadding
    rw [hb1, hb2, hb3, hb4]
    rfl
  unfold CreateOperation
  rw [hp]
  exact ⟨rfl, rfl, rfl⟩

/-- C2, witness: the amended claim applied at the concrete out-of-range
purpose value -1. -/
theorem C2_invalid_purpose_witness :
    (CreateOperation ⟨[(Tag.PADDING, 2)], some ⟨65537, 256⟩⟩ (-1)).op = none ∧
    (CreateOperation ⟨[(Tag.PADDING, 2)], some ⟨65537, 256⟩⟩ (-1)).err =
      keymaster_error_t.KM_ERROR_UNSUPPORTED_PADDING_MODE ∧
    (CreateOperation ⟨[(Tag.PADDING, 2)], some ⟨65537, 256⟩⟩ (-1)).post =
      ⟨[(Tag.PADDING, 2)], some ⟨65537, 256⟩⟩ :=
  C2_invalid_purpose ⟨[(Tag.PADDING, 2)], some ⟨65537, 256⟩⟩ (-1)
    (by decide) (by decide) (by decide) (by decide)

/-- C3, counterexample: generating a key from the empty description
succeeds, yet the produced entity's AuthorizationSet holds no value for
Algorithm — the generation path never appends that tag — refuting the
claim as stated for GenerateKey. -/
theorem C3_counterexample :
    (GenerateKey false [] (GenOutcome.ok ⟨65537, 256⟩)).ret.map
        (fun k => getTagValue k.auths Tag.ALGORITHM) = some none := by decide

/-- C3, amended: every Key Entity constructed by ImportKey resolves
Algorithm, KeySize and PublicExponent in its AuthorizationSet; every Key
Entity constructed by GenerateKey resolves KeySize and PublicExponent
(Algorithm is present only when the caller declared it). -/
theorem C3_resolved_tags (desc : AuthorizationSet) :
    (∀ pkeyRsa k, (ImportKey false desc pkeyRsa).ret = some k →
        (getTagValue k.auths Tag.ALGORITHM).isSome = true ∧
        (getTagValue k.auths Tag.KEY_SIZE).isSome = true ∧
        (getTagValue k.auths Tag.RSA_PUBLIC_EXPONENT).isSome = true) ∧
    (∀ outcome k, (GenerateKey false desc outcome).ret = some k →
        (getTagValue k.auths Tag.KEY_SIZE).isSome = true ∧
        (getTagValue k.auths Tag.RSA_PUBLIC_EXPONENT).isSome = true) := by
  constructor
  · intro pkeyRsa k hk
    cases pkeyRsa with
    | none => exact absurd hk (by simp [ImportKey])
    | some m =>
        obtain ⟨hexp, hks, halg, _, _⟩ := ImportKey_ret desc m k hk
        exact ⟨halg, hks, hexp⟩
  · intro outcome k hk
    cases outcome with
    | allocFail => exact absurd hk (by simp [GenerateKey])
    | genFail => exact absurd hk (by simp [GenerateKey])
    | ok m =>
        have hk2 : (⟨resolveDefaults desc, some m⟩ : RsaKey) = k := by
          have := hk
          simp only [GenerateKey, Bool.false_eq_true, if_false] at this
          exact Option.some.inj this
        rw [← hk2]
        constructor
        · rw [show (⟨resolveDefaults desc, some m⟩ : RsaKey).auths =
                resolveDefaults desc from rfl, resolveDefaults_keysize]
          rfl
        · rw [show (⟨resolveDefaults desc, some m⟩ : RsaKey).auths =
                resolveDefaults desc from rfl, resolveDefaults_exponent]
          rfl

/-- C3, witness: the amended claim applied to a concrete import (material
with exponent 3, 128 bytes, empty description) and a concrete generation
(empty description). -/
theorem C3_resolved_tags_witness :
    ((getTagValue (RsaKey.mk [(Tag.RSA_PUBLIC_EXPONENT, 3), (Tag.KEY_SIZE, 1024),
          (Tag.ALGORITHM, 1)] (some ⟨3, 128⟩)).auths Tag.ALGORITHM).isSome = true ∧
     (getTagValue (RsaKey.mk [(Tag.RSA_PUBLIC_EXPONENT, 3), (Tag.KEY_SIZE, 1024),
          (Tag.ALGORITHM, 1)] (some ⟨3, 128⟩)).auths Tag.KEY_SIZE).isSome = true ∧
     (getTagValue (RsaKey.mk [(Tag.RSA_PUBLIC_EXPONENT, 3), (Tag.KEY_SIZE, 1024),
          (Tag.ALGORITHM, 1)] (some ⟨3, 128⟩)).auths
        Tag.RSA_PUBLIC_EXPONENT).isSome = true) ∧
    ((getTagValue (RsaKey.mk [(Tag.RSA_PUBLIC_EXPONENT, 65537), (Tag.KEY_SIZE, 2048)]
          (some ⟨65537, 256⟩)).auths Tag.KEY_SIZE).isSome = true ∧
     (getTagValue (RsaKey.mk [(Tag.RSA_PUBLIC_EXPONENT, 65537), (Tag.KEY_SIZE, 2048)]
          (some ⟨65537, 256⟩)).auths Tag.RSA_PUBLIC_EXPONENT).isSome = true) :=
  ⟨(C3_resolved_tags []).1 (some ⟨3, 128⟩) _ (by decide),
   (C3_resolved_tags []).2 (GenOutcome.ok ⟨65537, 256⟩) _ (by decide)⟩

/-- C4: for the four known purposes, dispatch succeeds exactly when
Sign/Verify come with padding None and digest None, or Encrypt/Decrypt
come with padding OAEP or PKCS#1-v1.5-encryption (digest unconstrained);
a disallowed padding reports UnsupportedPaddingMode, and an allowed
padding with a disallowed digest reports UnsupportedDigest — the padding
check runs first, so a request violating both reports the padding error. -/
theorem C4_mode_matrix (k : RsaKey) (purpose : Int)
    (h : purpose = KM_PURPOSE_SIGN ∨ purpose = KM_PURPOSE_VERIFY ∨
         purpose = KM_PURPOSE_ENCRYPT ∨ purpose = KM_PURPOSE_DECRYPT) :
    (((CreateOperation k purpose).err = keymaster_error_t.KM_ERROR_OK ∧
        ((CreateOperation k purpose).op).isSome = true) ↔
      (((purpose = KM_PURPOSE_SIGN ∨ purpose = KM_PURPOSE_VERIFY) ∧
          declaredPadding k = KM_PAD_NONE ∧ declaredDigest k = KM_DIGEST_NONE) ∨
       ((purpose = KM_PURPOSE_ENCRYPT ∨ purpose = KM_PURPOSE_DECRYPT) ∧
          (declaredPadding k = KM_PAD_RSA_OAEP ∨
           declaredPadding k = KM_PAD_RSA_PKCS1_1_5_ENCRYPT)))) ∧
    ((((purpose = KM_PURPOSE_SIGN ∨ purpose = KM_PURPOSE_VERIFY) ∧
         declaredPadding k ≠ KM_PAD_NONE) ∨
      ((purpose = KM_PURPOSE_ENCRYPT ∨ purpose = KM_PURPOSE_DECRYPT) ∧
         declaredPadding k ≠ KM_PAD_RSA_OAEP ∧
         declaredPadding k ≠ KM_PAD_RSA_PKCS1_1_5_ENCRYPT)) →
      ((CreateOperation k purpose).err =
          keymaster_error_t.KM_ERROR_UNSUPPORTED_PADDING_MODE ∧
        (CreateOperation k purpose).op = none)) ∧
    (((purpose = KM_PURPOSE_SIGN ∨ purpose = KM_PURPOSE_VERIFY) ∧
        declaredPadding k = KM_PAD_NONE ∧ declaredDigest k ≠ KM_DIGEST_NONE) →
      ((CreateOperation k purpose).err =
          keymaster_error_t.KM_ERROR_UNSUPPORTED_DIGEST ∧
        (CreateOperation k purpose).op = none)) := by
  rcases h with h | h | h | h <;> subst h
  · by_cases hp : declaredPadding k = KM_PAD_NONE <;>
      by_cases hd : declaredDigest k = KM_DIGEST_NONE <;>
        simp [CreateOperation, SupportedModePadding, SupportedModeDigest,
          KM_PURPOSE_SIGN, KM_PURPOSE_VERIFY, KM_PURPOSE_ENCRYPT,
          KM_PURPOSE_DECRYPT, hp, hd]
  · by_cases hp : declaredPadding k = KM_PAD_NONE <;>
      by_cases hd : declaredDigest k = KM_DIGEST_NONE <;>
        simp [CreateOperation, SupportedModePadding, SupportedModeDigest,
          KM_PURPOSE_SIGN, KM_PURPOSE_VERIFY, KM_PURPOSE_ENCRYPT,
          KM_PURPOSE_DECRYPT, hp, hd]
  · by_cases hp2 : declaredPadding k = KM_PAD_RSA_OAEP <;>
      by_cases hp3 : declaredPadding k = KM_PAD_RSA_PKCS1_1_5_ENCRYPT <;>
        simp [CreateOperation, SupportedModePadding, SupportedModeDigest,
          KM_PURPOSE_SIGN, KM_PURPOSE_VERIFY, KM_PURPOSE_ENCRYPT,
          KM_PURPOSE_DECRYPT, hp2, hp3]
  · by_cases hp2 : declaredPadding k = KM_PAD_RSA_OAEP <;>
      by_cases hp3 : declaredPadding k = KM_PAD_RSA_PKCS1_1_5_ENCRYPT <;>
        simp [CreateOperation, SupportedModePadding, SupportedModeDigest,
          KM_PURPOSE_SIGN, KM_PURPOSE_VERIFY, KM_PURPOSE_ENCRYPT,
          KM_PURPOSE_DECRYPT, hp2, hp3]

/-- C4, witness: the mode matrix applied at purpose Verify with declared
padding None and digest None, yielding a successful dispatch. -/
theorem C4_mode_matrix_witness :
    (CreateOperation ⟨[(Tag.PADDING, 1), (Tag.DIGEST, 0)], some ⟨65537, 256⟩⟩
        KM_PURPOSE_VERIFY).err = keymaster_error_t.KM_ERROR_OK ∧
    ((CreateOperation ⟨[(Tag.PADDING, 1), (Tag.DIGEST, 0)], some ⟨65537, 256⟩⟩
        KM_PURPOSE_VERIFY).op).isSome = true :=
  ((C4_mode_matrix ⟨[(Tag.PADDING, 1), (Tag.DIGEST, 0)], some ⟨65537, 256⟩⟩
      KM_PURPOSE_VERIFY (Or.inr (Or.inl rfl))).1).mpr
    (Or.inl ⟨Or.inr rfl, by decide, by decide⟩)

/-- C5: ownership transfer at dispatch is all-or-nothing: on success
exactly one operation object is returned, it owns precisely the material
the entity held, and the entity's material slot is empty afterwards; on
any failure no operation is returned and the entity — material included —
is exactly as before the call. -/
theorem C5_ownership_transfer (k : RsaKey) (purpose : Int) :
    ((CreateOperation k purpose).err = keymaster_error_t.KM_ERROR_OK →
      ∃ op, (CreateOperation k purpose).op = some op ∧
        op.material = k.material ∧
        (CreateOperation k purpose).post = ⟨k.auths, none⟩) ∧
    ((CreateOperation k purpose).err ≠ keymaster_error_t.KM_ERROR_OK →
      (CreateOperation k purpose).op = none ∧
      (CreateOperation k purpose).post = k) := by
  rcases CreateOperation_cases k purpose with ⟨op, heq, hmat⟩ | ⟨hop, herr, hpost⟩
  · refine ⟨fun _ => ⟨op, ?_, hmat, ?_⟩, fun hne => absurd ?_ hne⟩
    · rw [heq]
    · rw [heq]
    · rw [heq]
  · exact ⟨fun hok => absurd hok herr, fun _ => ⟨hop, hpost⟩⟩

/-- C5, witness: a successful Encrypt dispatch (padding OAEP, digest
declared but unconstrained) moves the material into the operation and
empties the entity's slot. -/
theorem C5_ownership_transfer_witness :
    ∃ op, (CreateOperation ⟨[(Tag.PADDING, 2), (Tag.DIGEST, 5)], some ⟨3, 128⟩⟩
        KM_PURPOSE_ENCRYPT).op = some op ∧
      op.material = some (RsaMaterial.mk 3 128) ∧
      (CreateOperation ⟨[(Tag.PADDING, 2), (Tag.DIGEST, 5)], some ⟨3, 128⟩⟩
        KM_PURPOSE_ENCRYPT).post =
        ⟨[(Tag.PADDING, 2), (Tag.DIGEST, 5)], none⟩ :=
  (C5_ownership_transfer ⟨[(Tag.PADDING, 2), (Tag.DIGEST, 5)], some ⟨3, 128⟩⟩
      KM_PURPOSE_ENCRYPT).1 (by decide)

/-- C6: a declared public exponent differing (as an arbitrary-precision
value) from the material's actual exponent makes the import fail with
ImportParameterMismatch and produce no Key Entity; when the exponent is
omitted, any Key Entity the import produces resolves PublicExponent to the
material's true exponent. -/
theorem C6_exponent_reconciliation (desc : AuthorizationSet) (m : RsaMaterial) :
    (∀ d, getTagValue desc Tag.RSA_PUBLIC_EXPONENT = some d → d ≠ m.e →
        (ImportKey false desc (some m)).ret = none ∧
        (ImportKey false desc (some m)).errWrite =
          some keymaster_error_t.KM_ERROR_IMPORT_PARAMETER_MISMATCH) ∧
    (getTagValue desc Tag.RSA_PUBLIC_EXPONENT = none →
      ∀ k, (ImportKey false desc (some m)).ret = some k →
        getTagValue k.auths Tag.RSA_PUBLIC_EXPONENT = some m.e) := by
  constructor
  · intro d hd hne
    have heval : ImportKey false desc (some m) =
        ⟨none, some keymaster_error_t.KM_ERROR_IMPORT_PARAMETER_MISMATCH, true⟩ := by
      simp [ImportKey, hd, hne]
    rw [heval]
    exact ⟨rfl, rfl⟩
  · intro hnone k hk
    exact (ImportKey_ret desc m k hk).2.2.2.2 hnone

/-- C6, witness: importing material with exponent 65537 while declaring
exponent 3 is rejected with ImportParameterMismatch; importing material
with exponent 3 and no declared exponent yields an entity resolving
PublicExponent to 3. -/
theorem C6_exponent_reconciliation_witness :
    ((ImportKey false [(Tag.RSA_PUBLIC_EXPONENT, 3)] (some ⟨65537, 256⟩)).ret = none ∧
     (ImportKey false [(Tag.RSA_PUBLIC_EXPONENT, 3)] (some ⟨65537, 256⟩)).errWrite =
       some keymaster_error_t.KM_ERROR_IMPORT_PARAMETER_MISMATCH) ∧
    getTagValue (RsaKey.mk [(Tag.RSA_PUBLIC_EXPONENT, 3), (Tag.KEY_SIZE, 1024),
        (Tag.ALGORITHM, 1)] (some ⟨3, 128⟩)).auths Tag.RSA_PUBLIC_EXPONENT =
      some (RsaMaterial.mk 3 128).e :=
  ⟨(C6_exponent_reconciliation [(Tag.RSA_PUBLIC_EXPONENT, 3)] ⟨65537, 256⟩).1
      3 (by decide) (by decide),
   (C6_exponent_reconciliation [] ⟨3, 128⟩).2 (by decide) _ (by decide)⟩

/-- C7: when the caller omits PublicExponent and the material's exponent,
narrowed by the provider's fixed-width word read, equals the sentinel
"value too large" marker 0xffffffff, the import is rejected with
ImportParameterMismatch and no Key Entity is produced. -/
theorem C7_sentinel_exponent (desc : AuthorizationSet) (m : RsaMaterial)
    (h1 : getTagValue desc Tag.RSA_PUBLIC_EXPONENT = none)
    (h2 : BN_get_word m.e = 0xffffffff) :
    (ImportKey false desc (some m)).ret = none ∧
    (ImportKey false desc (some m)).errWrite =
      some keymaster_error_t.KM_ERROR_IMPORT_PARAMETER_MISMATCH := by
  have heval : ImportKey false desc (some m) =
      ⟨none, some keymaster_error_t.KM_ERROR_IMPORT_PARAMETER_MISMATCH, true⟩ := by
    simp [ImportKey, h1, h2]
  rw [heval]
  exact ⟨rfl, rfl⟩

/-- C7, witness: material whose exponent is exactly 0xffffffff — a
legitimate value that nevertheless narrows to the sentinel — is rejected
when the description omits PublicExponent. -/
theorem C7_sentinel_exponent_witness :
    (ImportKey false [] (some ⟨0xffffffff, 256⟩)).ret = none ∧
    (ImportKey false [] (some ⟨0xffffffff, 256⟩)).errWrite =
      some keymaster_error_t.KM_ERROR_IMPORT_PARAMETER_MISMATCH :=
  C7_sentinel_exponent [] ⟨0xffffffff, 256⟩ rfl (by decide)

/-- C8: parameter resolution on the generation path yields an augmented
set in which PublicExponent is 65537 and KeySize is 2048 exactly when
those tags were absent, while a declared value is resolved unchanged; the
caller's entries are preserved verbatim (resolution only appends), and the
step is a total function with no failure mode. -/
theorem C8_generation_defaults (desc : AuthorizationSet) :
    getTagValue (resolveDefaults desc) Tag.RSA_PUBLIC_EXPONENT =
      some ((getTagValue desc Tag.RSA_PUBLIC_EXPONENT).getD RSA_DEFAULT_EXPONENT) ∧
    getTagValue (resolveDefaults desc) Tag.KEY_SIZE =
      some ((getTagValue desc Tag.KEY_SIZE).getD RSA_DEFAULT_KEY_SIZE) ∧
    (∃ appended, resolveDefaults desc = desc ++ appended) ∧
    ∀ outcome, (GenerateKey false desc outcome).ret.all
        (fun k => k.auths == resolveDefaults desc) = true := by
  refine ⟨resolveDefaults_exponent desc, resolveDefaults_keysize desc, ?_, ?_⟩
  · obtain ⟨a1, h1⟩ := resolveExponent_append desc
    obtain ⟨a2, h2⟩ := resolveKeySize_append (resolveExponent desc)
    refine ⟨a1 ++ a2, ?_⟩
    unfold resolveDefaults
    rw [h2, h1, List.append_assoc]
  · intro outcome
    cases outcome with
    | allocFail => rfl
    | genFail => rfl
    | ok m => simp [GenerateKey]

/-- C9: default resolution is idempotent — applying the resolution step to
an already-resolved set changes nothing, because each append is guarded by
the presence check on its tag. -/
theorem C9_defaults_idempotent (s : AuthorizationSet) :
    resolveDefaults (resolveDefaults s) = resolveDefaults s := by
  have hexp : (getTagValue (resolveDefaults s) Tag.RSA_PUBLIC_EXPONENT).isSome = true := by
    rw [resolveDefaults_exponent]; rfl
  have hks : (getTagValue (resolveDefaults s) Tag.KEY_SIZE).isSome = true := by
    rw [resolveDefaults_keysize]; rfl
  show resolveKeySize (resolveExponent (resolveDefaults s)) = resolveDefaults s
  rw [resolveExponent_of_isSome _ hexp, resolveKeySize_of_isSome _ hks]

/-- C10: with a null error out-pointer, GenerateKey and ImportKey return
no Key Entity, never reach the provider (no generation, no extraction of
imported material), and write nothing through the pointer — no state is
modified, whatever the description, provider outcome or supplied
material. -/
theorem C10_null_error_pointer (desc : AuthorizationSet) :
    (∀ outcome, GenerateKey true desc outcome =
        ⟨none, none, false⟩) ∧
    (∀ pkeyRsa, ImportKey true desc pkeyRsa =
        ⟨none, none, false⟩) :=
  ⟨fun _ => rfl, fun _ => rfl⟩

end Keymaster
